/-
  Verification of the keep-me-alive service core against its specification.

  Shallow embedding of the Python source:
    storage.py         — Persistence Cache entity operations over a Snapshot
    gist_storage.py    — remote (Gist) load path and defaults
    browser_worker.py  — Probe Worker visit outcome computation
    scheduler.py       — Scheduler flag / timer behaviour

  Conventions of the embedding:
  * timestamps are integers (seconds); `datetime.now()` is passed explicitly
    as a `now` argument;
  * a Python `datetime.fromisoformat` failure is modelled by the record's
    `timestamp` field being `none` (kept by the cleanup, as in the source);
  * randomness (`random.randint`) is passed explicitly as an `interval`
    argument;
  * I/O results (HTTP fetch, local file read) are passed explicitly as
    inductive values describing each outcome the source branches on.
-/
import Mathlib

/-! ## Data model (storage.py / gist_storage.py `DEFAULT_DATA`) -/

/-- A website entry, as built by `storage.add_website` (storage.py lines 114-120). -/
structure Website where
  id : String
  url : String
  name : String
  enabled : Bool
  added_at : String
deriving Repr, DecidableEq

/-- The settings dict (gist_storage.py lines 26-30). -/
structure Settings where
  interval_min : Int
  interval_max : Int
  screenshots_enabled : Bool
deriving Repr, DecidableEq

/-- A visit-history record, as built by `storage.add_visit_record`
(storage.py lines 202-208).  `timestamp` is `none` when the stored ISO string
does not parse (`datetime.fromisoformat` raises; storage.py lines 187, 190-192). -/
structure VisitRecord where
  url : String
  timestamp : Option Int
  success : Bool
  response_time_ms : Int
  error_message : String
deriving Repr, DecidableEq

/-- The full persisted document (the spec's Snapshot). -/
structure Snapshot where
  websites : List Website
  settings : Settings
  visit_history : List VisitRecord
deriving Repr, DecidableEq

/-- `DEFAULT_DATA["settings"]` (gist_storage.py lines 26-30). -/
def DEFAULT_SETTINGS : Settings :=
  { interval_min := 10, interval_max := 14, screenshots_enabled := false }

/-- `DEFAULT_DATA` (gist_storage.py lines 24-32). -/
def DEFAULT_DATA : Snapshot :=
  { websites := [], settings := DEFAULT_SETTINGS, visit_history := [] }

/-! ## Website operations (storage.py) -/

/-- Case-insensitive uniqueness key: `url.lower()` (storage.py line 110),
modelled character-wise (each character replaced by its lowercase form). -/
def urlKey (s : String) : String := String.mk (s.data.map Char.toLower)

/-- The duplicate check of `add_website`: the loop over `data["websites"]`
comparing `site["url"].lower() == url.lower()` (storage.py lines 109-111). -/
def hasUrl (ws : List Website) (url : String) : Bool :=
  ws.any (fun w => urlKey w.url == urlKey url)

/-- The website dict built by `add_website` (storage.py lines 114-120);
`name or url` defaults the display name to the url when empty. -/
def mkWebsite (idStr iso url name : String) : Website :=
  { id := idStr, url := url, name := if name = "" then url else name
  , enabled := true, added_at := iso }

/-- `storage.add_website` (storage.py lines 104-123) as a pure function from
the loaded snapshot to (return value, persisted snapshot).  On a
case-insensitive url match it returns `False` without saving; otherwise it
appends the new website and saves. -/
def add_website (idStr iso url name : String) (data : Snapshot) : Bool × Snapshot :=
  if hasUrl data.websites url then (false, data)
  else (true, { data with websites := data.websites ++ [mkWebsite idStr iso url name] })

/-- Membership test on ids, as used by `remove_website`/`toggle_website`. -/
def hasId (ws : List Website) (website_id : String) : Bool :=
  ws.any (fun w => w.id == website_id)

/-- The loop of `toggle_website` (storage.py lines 141-145): find the first
website with the given id, flip `enabled`, and report the new status; `none`
when no website matches. -/
def toggleGo (website_id : String) : List Website → Option (Bool × List Website)
  | [] => none
  | w :: ws =>
    if w.id = website_id then
      some (!w.enabled, { w with enabled := !w.enabled } :: ws)
    else
      match toggleGo website_id ws with
      | some (b, ws2) => some (b, w :: ws2)
      | none => none

/-- `storage.toggle_website` (storage.py lines 138-146) as a pure function:
(return value, persisted snapshot, whether `_save_data` was called).  When the
id is found the new `enabled` status is returned and the snapshot saved; when
it is not found the function returns `False` without saving. -/
def toggle_website (website_id : String) (data : Snapshot) : Bool × Snapshot × Bool :=
  match toggleGo website_id data.websites with
  | some (b, ws) => (b, { data with websites := ws }, true)
  | none => (false, data, false)

/-! ## Settings operations (storage.py) -/

/-- `storage.update_settings` (storage.py lines 156-170): each supplied value
overwrites the corresponding field; no validation or clamping is performed. -/
def update_settings (interval_min interval_max : Option Int)
    (screenshots_enabled : Option Bool) (data : Snapshot) : Snapshot :=
  let s0 := data.settings
  let s1 := match interval_min with
            | some v => { s0 with interval_min := v }
            | none => s0
  let s2 := match interval_max with
            | some v => { s1 with interval_max := v }
            | none => s1
  let s3 := match screenshots_enabled with
            | some v => { s2 with screenshots_enabled := v }
            | none => s2
  { data with settings := s3 }

/-- The spec's settings invariant: `1 ≤ interval_min ≤ interval_max ≤ 60`. -/
def settingsInvariant (s : Settings) : Prop :=
  1 ≤ s.interval_min ∧ s.interval_min ≤ s.interval_max ∧ s.interval_max ≤ 60

instance (s : Settings) : Decidable (settingsInvariant s) := by
  unfold settingsInvariant; infer_instance

/-! ## Visit-history operations (storage.py) -/

/-- `HISTORY_MAX_AGE_DAYS` (storage.py line 174). -/
def HISTORY_MAX_AGE_DAYS : Int := 3

/-- Seconds per day, for the `timedelta(days=...)` arithmetic. -/
def SECONDS_PER_DAY : Int := 86400

/-- The record dict built by `add_visit_record` (storage.py lines 202-208). -/
def mkVisitRecord (now : Int) (url : String) (success : Bool)
    (response_time : Int) (error_message : String) : VisitRecord :=
  { url := url, timestamp := some now, success := success
  , response_time_ms := response_time, error_message := error_message }

/-- `storage._cleanup_old_history` (storage.py lines 177-194), mirroring the
source loop: a record whose timestamp parses is kept iff it is strictly newer
than `now - 3 days`; a record whose timestamp fails to parse is kept. -/
def _cleanup_old_history (now : Int) : List VisitRecord → List VisitRecord
  | [] => []
  | r :: rs =>
    match r.timestamp with
    | some t =>
      if t > now - HISTORY_MAX_AGE_DAYS * SECONDS_PER_DAY then
        r :: _cleanup_old_history now rs
      else
        _cleanup_old_history now rs
    | none => r :: _cleanup_old_history now rs

/-- `storage.add_visit_record` (storage.py lines 197-220): build the record,
clean the prior history, prepend the record, and persist the first 100
entries. -/
def add_visit_record (now : Int) (url : String) (success : Bool)
    (response_time : Int) (error_message : String) (data : Snapshot) : Snapshot :=
  let record := mkVisitRecord now url success response_time error_message
  let history := _cleanup_old_history now data.visit_history
  let history2 := record :: history
  { data with visit_history := history2.take 100 }

/-- The retention rule in the spec's words: keep exactly the entries not older
than the 3-day threshold (an unparseable timestamp cannot be judged old, so
such entries are kept). -/
def retentionKeep (now : Int) (r : VisitRecord) : Bool :=
  match r.timestamp with
  | some t => t > now - HISTORY_MAX_AGE_DAYS * SECONDS_PER_DAY
  | none => true

/-! ## No-duplicate invariant and call sequences (for the uniqueness claim) -/

/-- No two websites in the list share a case-insensitively equal url. -/
def noCaseDups : List Website → Bool
  | [] => true
  | w :: ws => !hasUrl ws w.url && noCaseDups ws

/-- One `add_website` call's arguments. -/
structure AddCall where
  idStr : String
  iso : String
  url : String
  name : String

/-- A sequence of `add_website` calls applied to the persisted snapshot. -/
def applyAdds : List AddCall → Snapshot → Snapshot
  | [], d => d
  | c :: cs, d => applyAdds cs (add_website c.idStr c.iso c.url c.name d).2

/-! ## Remote (Gist) load path (gist_storage.py, storage.py `_load_data`)

`load_from_gist` parses the fetched file content with `json.loads` and then
runs a key-completion loop (`for key in DEFAULT_DATA: ...`, gist_storage.py
lines 69-71) that inserts any missing top-level key from `DEFAULT_DATA`.  We
model the parse result as an optional record of the three optional top-level
sections (`none` = the content is malformed or not a dict, in which case the
later subscripting raises and the `except` returns the defaults). -/

/-- A successfully parsed gist document: each top-level section may be absent
(the key-completion loop then supplies the default). -/
structure RawGistData where
  websites : Option (List Website)
  settings : Option Settings
  visit_history : Option (List VisitRecord)
deriving Repr, DecidableEq

/-- The key-completion loop of `load_from_gist` (gist_storage.py lines 69-71). -/
def completeWithDefaults (p : RawGistData) : Snapshot :=
  { websites := p.websites.getD DEFAULT_DATA.websites
  , settings := p.settings.getD DEFAULT_DATA.settings
  , visit_history := p.visit_history.getD DEFAULT_DATA.visit_history }

/-- Outcome of the HTTP fetch inside `load_from_gist`, covering each branch of
gist_storage.py lines 53-78. -/
inductive GistFetch where
  /-- Status 200 with the expected filename present; the payload carries the
  parse result of its content (`none` = malformed JSON / not a dict). -/
  | ok (content : Option RawGistData)
  /-- Status 200 but `GIST_FILENAME` absent from the response's files. -/
  | missingFile
  /-- Non-200 status. -/
  | httpError
  /-- `requests.get` (or response handling) raised. -/
  | netError
deriving Repr, DecidableEq

/-- `gist_storage.load_from_gist` (gist_storage.py lines 48-78).  Every branch
other than a successful parse returns `DEFAULT_DATA.copy()`; a successful
parse returns the parsed dict with missing top-level keys defaulted. -/
def load_from_gist (configured : Bool) (fetch : GistFetch) : Snapshot :=
  if !configured then DEFAULT_DATA
  else
    match fetch with
    | .ok (some p) => completeWithDefaults p
    | .ok none => DEFAULT_DATA
    | .missingFile => DEFAULT_DATA
    | .httpError => DEFAULT_DATA
    | .netError => DEFAULT_DATA

/-- Top-level keys of the dict a `load_from_gist` result carries.  Every
return path yields a dict with exactly the three `DEFAULT_DATA` keys (either
`DEFAULT_DATA.copy()` itself or a parsed dict run through the key-completion
loop), so the key list is constant.  Python's `if data:` tests dict
truthiness, i.e. that this list is nonempty. -/
def snapshotKeys (_ : Snapshot) : List String :=
  ["websites", "settings", "visit_history"]

/-- State of the local durable file `data/websites.json` when `_load_data`
falls through to it. -/
inductive LocalFile where
  /-- File absent: `_ensure_local_file` creates it with `DEFAULT_DATA`
  (storage.py lines 29-34), so the subsequent read yields the defaults. -/
  | absent
  /-- File present but `json.load` raises: the `except` substitutes
  `DEFAULT_DATA` (storage.py lines 62-65). -/
  | corrupt
  /-- File present and parseable with the given snapshot. -/
  | content (s : Snapshot)
deriving Repr, DecidableEq

/-- The local-file branch of `_load_data` (storage.py lines 54-65):
ensure the file exists, read it, and fall back to the defaults on a parse
error. -/
def readLocal : LocalFile → Snapshot
  | .absent => DEFAULT_DATA
  | .corrupt => DEFAULT_DATA
  | .content s => s

/-- `storage._load_data` (storage.py lines 37-65) as a pure function of the
cache state and the I/O outcomes, returning (returned snapshot, new cache).
The whole body runs under `_data_lock`.  When a cache is loaded it is
returned; otherwise the gist is tried first when configured, and its result is
adopted when the returned dict is truthy (`if data:`); only a falsy result
falls through to the local file. -/
def _load_data (cache : Option Snapshot) (configured : Bool)
    (fetch : GistFetch) (file : LocalFile) : Snapshot × Option Snapshot :=
  match cache with
  | some c => (c, some c)
  | none =>
    let viaGist : Option Snapshot :=
      if configured then
        let d := load_from_gist configured fetch
        if (snapshotKeys d).isEmpty then none else some d
      else none
    match viaGist with
    | some d => (d, some d)
    | none =>
      let l := readLocal file
      (l, some l)

/-! ## Probe Worker (browser_worker.py `visit_website`) -/

/-- Outcome of the navigation step (`page.goto`, browser_worker.py line 59). -/
inductive NavResult where
  /-- Navigation reached DOM-ready within the timeout. -/
  | ok
  /-- `PlaywrightTimeout` raised (browser_worker.py line 81). -/
  | timeout
  /-- Some other exception raised with message `msg` (browser_worker.py
  line 87; `error_msg = str(e)`). -/
  | error (msg : String)
deriving Repr, DecidableEq

/-- Outcome of the screenshot step (`page.screenshot`, browser_worker.py
line 72). -/
inductive ShotResult where
  /-- Screenshot written to the given path. -/
  | ok (path : String)
  /-- `page.screenshot` raised with message `msg`. -/
  | error (msg : String)
deriving Repr, DecidableEq

/-- The tuple returned by `visit_website`:
`(success, response_time_ms, error_message, screenshot_path)`. -/
structure VisitOutcome where
  success : Bool
  response_time_ms : Int
  error_message : String
  screenshot_path : String
deriving Repr, DecidableEq

/-- `browser_worker.visit_website` (browser_worker.py lines 25-91) as a pure
function of the step outcomes, returning the outcome tuple and the history
record passed to `add_visit_record` (`none` on the playwright-missing early
return, which records nothing).  The screenshot call sits inside the one big
`try`, so a screenshot exception is caught by the generic handler
(lines 87-91) exactly like a navigation error. -/
def visit_website (url : String) (now : Int) (available : Bool)
    (nav : NavResult) (shot : ShotResult) (take_screenshot : Bool)
    (rt : Int) : VisitOutcome × Option VisitRecord :=
  if !available then
    (⟨false, 0, "Playwright not installed. Run: playwright install chromium", ""⟩, none)
  else
    match nav with
    | .timeout =>
      let msg := "Timeout: Page took too long to load"
      (⟨false, rt, msg, ""⟩, some (mkVisitRecord now url false rt msg))
    | .error msg =>
      (⟨false, rt, msg, ""⟩, some (mkVisitRecord now url false rt msg))
    | .ok =>
      if take_screenshot then
        match shot with
        | .ok path =>
          (⟨true, rt, "", path⟩, some (mkVisitRecord now url true rt ""))
        | .error msg =>
          (⟨false, rt, msg, ""⟩, some (mkVisitRecord now url false rt msg))
      else
        (⟨true, rt, "", ""⟩, some (mkVisitRecord now url true rt ""))

/-! ## Scheduler timer state (scheduler.py) -/

/-- The scheduler-side state the timer claims are about: whether the
APScheduler instance exists, whether the `keep_alive_job` job is pending with
its `next_run_time`, and the `_is_running` flag. -/
structure SchedulerState where
  schedulerActive : Bool
  jobPresent : Bool
  nextRunTime : Int
  is_running : Bool
deriving Repr, DecidableEq

/-- `scheduler._reschedule_with_random_interval` (scheduler.py lines 65-96):
a no-op when no scheduler exists; otherwise it removes the pending
`keep_alive_job` and adds a fresh one whose `next_run_time` is `now` plus the
newly drawn interval (minutes, passed explicitly as `interval`). -/
def _reschedule_with_random_interval (now interval : Int)
    (st : SchedulerState) : SchedulerState :=
  if !st.schedulerActive then st
  else { st with jobPresent := true, nextRunTime := now + interval }

/-- The effect of one `scheduler._run_visits` execution on the scheduler state
(scheduler.py lines 37-62): the flag is set for the duration of the pass and
cleared in the `finally`, which then always calls
`_reschedule_with_random_interval`.  `endTime` is `datetime.now()` at the
reschedule; `interval` is the freshly drawn random interval. -/
def _run_visits (endTime interval : Int) (st : SchedulerState) : SchedulerState :=
  _reschedule_with_random_interval endTime interval { st with is_running := false }

/-- `scheduler.trigger_immediate_run` (scheduler.py lines 167-178) together
with the completed run of the pass it spawns: when the flag is set it returns
`False` and changes nothing; otherwise it starts `_run_visits` in a thread
(modelled here as run to completion) and returns `True`. -/
def trigger_immediate_run (endTime interval : Int)
    (st : SchedulerState) : Bool × SchedulerState :=
  if st.is_running then (false, st)
  else (true, _run_visits endTime interval st)

/-! ## Interleaving model of storage mutations (claim about the data lock)

In the source, `_data_lock` is acquired inside `_load_data` (storage.py
line 41) and again, separately, inside `_save_data` (storage.py line 72); an
entity operation such as `add_visit_record` calls `_load_data()`, computes on
the returned copy, and then calls `_save_data(data)` with no lock held in
between.  We model each mutating call as two atomic steps against the shared
snapshot — a load step and a save step — which is exactly the atomicity the
lock placement provides. -/

/-- Arguments of one `add_visit_record` call. -/
structure VisitCall where
  now : Int
  url : String
  success : Bool
  rt : Int
  err : String

/-- Apply one `add_visit_record` call to a snapshot. -/
def applyVisit (c : VisitCall) (d : Snapshot) : Snapshot :=
  add_visit_record c.now c.url c.success c.rt c.err d

/-- Local state of one mutator thread: the snapshot copy obtained from its
load step (if taken), and whether its save step has completed. -/
structure MutThread where
  loaded : Option Snapshot
  saved : Bool
deriving Repr, DecidableEq

/-- Shared state plus the two mutator threads. -/
structure StorageSys where
  shared : Snapshot
  a : MutThread
  b : MutThread
deriving Repr, DecidableEq

/-- One atomic step of a mutator thread running `add_visit_record`:
first step = `_load_data` under the lock (copy the shared snapshot);
second step = `_save_data` under the lock (write back the result computed from
the thread's own loaded copy); further steps do nothing. -/
def mutStep (c : VisitCall) (shared : Snapshot) (t : MutThread) :
    Snapshot × MutThread :=
  match t.loaded, t.saved with
  | none, _ => (shared, { t with loaded := some shared })
  | some l, false => (applyVisit c l, { t with saved := true })
  | some _, true => (shared, t)

/-- Scheduler step of the two-thread system: `false` steps thread `a`,
`true` steps thread `b`. -/
def storageSysStep (ca cb : VisitCall) (s : StorageSys) : Bool → StorageSys
  | false =>
    let (sh, a2) := mutStep ca s.shared s.a
    { shared := sh, a := a2, b := s.b }
  | true =>
    let (sh, b2) := mutStep cb s.shared s.b
    { shared := sh, a := s.a, b := b2 }

/-- Run the two-thread system under an explicit interleaving schedule. -/
def runStorageSched (ca cb : VisitCall) (sched : List Bool)
    (s : StorageSys) : StorageSys :=
  sched.foldl (storageSysStep ca cb) s

/-- Initial system: shared snapshot `init`, neither thread has loaded. -/
def initStorageSys (init : Snapshot) : StorageSys :=
  { shared := init, a := { loaded := none, saved := false }
  , b := { loaded := none, saved := false } }

/-! ## Interleaving model of the scheduler flag (trigger claim)

`trigger_immediate_run` reads `_is_running` (scheduler.py line 171) and, when
clear, spawns a thread that runs `_run_visits`; only that spawned pass sets
`_is_running = True` (scheduler.py line 41) and clears it in its `finally`
(line 60).  No lock guards the flag, so the check and the set are separate
steps. -/

/-- Phases of one `trigger_immediate_run` call and the pass it may spawn. -/
inductive TrigPhase where
  /-- The call has been made but has not yet read `_is_running`. -/
  | beforeCheck
  /-- The call observed the flag set and returned `False` (busy). -/
  | busy
  /-- The call observed the flag clear and spawned the pass thread, which has
  not yet begun executing. -/
  | spawned
  /-- The spawned pass has set `_is_running = True` and is executing visits. -/
  | running
  /-- The spawned pass has cleared the flag and finished. -/
  | finished
deriving Repr, DecidableEq

/-- One atomic step of a trigger call / its pass against the shared flag. -/
def trigStep (flag : Bool) : TrigPhase → Bool × TrigPhase
  | .beforeCheck => if flag then (flag, .busy) else (flag, .spawned)
  | .spawned => (true, .running)
  | .running => (false, .finished)
  | p => (flag, p)

/-- Shared flag plus the phases of two concurrent trigger calls. -/
structure TrigSys where
  is_running : Bool
  p1 : TrigPhase
  p2 : TrigPhase
deriving Repr, DecidableEq

/-- Scheduler step of the two-trigger system: `false` steps the first call,
`true` the second. -/
def trigSysStep (s : TrigSys) : Bool → TrigSys
  | false =>
    let (f, p) := trigStep s.is_running s.p1
    { is_running := f, p1 := p, p2 := s.p2 }
  | true =>
    let (f, p) := trigStep s.is_running s.p2
    { is_running := f, p1 := s.p1, p2 := p }

/-- Run the two-trigger system under an explicit interleaving schedule. -/
def runTrig (sched : List Bool) (s : TrigSys) : TrigSys :=
  sched.foldl trigSysStep s

/-! ## Helper lemmas -/

/-- The source's cleanup loop computes exactly the retention filter. -/
theorem cleanup_eq_filter (now : Int) (l : List VisitRecord) :
    _cleanup_old_history now l = l.filter (retentionKeep now) := by
  induction l with
  | nil => rfl
  | cons r rs ih =>
    unfold _cleanup_old_history
    cases h : r.timestamp with
    | none => simp [List.filter_cons, retentionKeep, h, ih]
    | some t =>
      by_cases hc : t > now - HISTORY_MAX_AGE_DAYS * SECONDS_PER_DAY <;>
        simp [List.filter_cons, retentionKeep, h, hc, ih]

/-- Url-key equality is symmetric. -/
theorem urlKey_beq_comm (a b : String) :
    (urlKey a == urlKey b) = (urlKey b == urlKey a) := by
  rcases eq_or_ne (urlKey a) (urlKey b) with h | h
  · simp [h]
  · simp [beq_eq_false_iff_ne, h, Ne.symm h]

/-- Unfolding equation: duplicate check on a cons cell. -/
theorem hasUrl_cons (x : Website) (xs : List Website) (u : String) :
    hasUrl (x :: xs) u = ((urlKey x.url == urlKey u) || hasUrl xs u) := rfl

/-- Unfolding equation: duplicate check distributes over append. -/
theorem hasUrl_append (ws ws2 : List Website) (u : String) :
    hasUrl (ws ++ ws2) u = (hasUrl ws u || hasUrl ws2 u) := by
  simp [hasUrl, List.any_append]

/-- Unfolding equation: the no-duplicates invariant on a cons cell. -/
theorem noCaseDups_cons (y : Website) (l : List Website) :
    noCaseDups (y :: l) = (!hasUrl l y.url && noCaseDups l) := rfl

/-- Appending a website with a fresh url key preserves the no-duplicates
invariant. -/
theorem noCaseDups_append_one (ws : List Website) (w : Website) :
    hasUrl ws w.url = false → noCaseDups ws = true → noCaseDups (ws ++ [w]) = true := by
  induction ws with
  | nil => intro _ _; simp [noCaseDups, hasUrl]
  | cons x xs ih =>
    intro hnew hnd
    rw [hasUrl_cons, Bool.or_eq_false_iff] at hnew
    rw [noCaseDups_cons, Bool.and_eq_true, Bool.not_eq_true'] at hnd
    show noCaseDups (x :: (xs ++ [w])) = true
    rw [noCaseDups_cons, hasUrl_append, ih hnew.2 hnd.2, hnd.1, hasUrl_cons,
      urlKey_beq_comm, hnew.1]
    rfl

/-- One `add_website` call preserves the no-duplicates invariant. -/
theorem add_website_preserves_noCaseDups (c : AddCall) (d : Snapshot)
    (h : noCaseDups d.websites = true) :
    noCaseDups (add_website c.idStr c.iso c.url c.name d).2.websites = true := by
  unfold add_website
  by_cases hd : hasUrl d.websites c.url = true
  · simp [hd, h]
  · have hd' : hasUrl d.websites c.url = false := by
      cases hx : hasUrl d.websites c.url
      · rfl
      · exact absurd hx hd
    simp only [hd', Bool.false_eq_true, if_false]
    exact noCaseDups_append_one d.websites (mkWebsite c.idStr c.iso c.url c.name) hd' h

/-- Any sequence of `add_website` calls preserves the no-duplicates
invariant. -/
theorem applyAdds_preserves_noCaseDups (calls : List AddCall) :
    ∀ d : Snapshot, noCaseDups d.websites = true →
      noCaseDups (applyAdds calls d).websites = true := by
  induction calls with
  | nil => intro d h; exact h
  | cons c cs ih =>
    intro d h
    exact ih _ (add_website_preserves_noCaseDups c d h)

/-- When no website carries the requested id, the toggle loop finds nothing. -/
theorem toggleGo_none (website_id : String) (ws : List Website)
    (h : hasId ws website_id = false) : toggleGo website_id ws = none := by
  induction ws with
  | nil => rfl
  | cons w rest ih =>
    simp only [hasId, List.any_cons, Bool.or_eq_false_iff] at h
    have hne : ¬ w.id = website_id := by
      intro hx
      rw [hx] at h
      simp at h
    unfold toggleGo
    rw [if_neg hne, ih h.2]

/-- A trigger call that returned busy never changes phase again. -/
theorem trigStep_busy (f : Bool) : trigStep f TrigPhase.busy = (f, TrigPhase.busy) := rfl

/-- The busy outcome of the first trigger call is stable under any further
interleaving. -/
theorem runTrig_busy_stable (sched : List Bool) :
    ∀ s : TrigSys, s.p1 = TrigPhase.busy → (runTrig sched s).p1 = TrigPhase.busy := by
  induction sched with
  | nil => intro s h; exact h
  | cons x rest ih =>
    intro s h
    show (runTrig rest (trigSysStep s x)).p1 = TrigPhase.busy
    apply ih
    cases x
    · show (trigSysStep s false).p1 = TrigPhase.busy
      simp [trigSysStep, h, trigStep_busy]
    · show (trigSysStep s true).p1 = TrigPhase.busy
      rw [← h]
      cases hts : trigStep s.is_running s.p2 with
      | mk f p => simp [trigSysStep, hts]

/-! ## Demonstration data for the concrete scenarios -/

/-- A fixed reference time (seconds). -/
def demoNow : Int := 1000000000

/-- A history of 100 records all timestamped within the last two minutes
(newest first), as in the spec's cap scenario. -/
def sameDayHistory : List VisitRecord :=
  (List.range 100).map
    (fun i => mkVisitRecord (demoNow - Int.ofNat i - 1) "https://old.example" true 0 "")

/-- Snapshot holding the 100 same-day records. -/
def capSnapshot : Snapshot := { DEFAULT_DATA with visit_history := sameDayHistory }

/-- The 101st append into the full history. -/
def afterCap : Snapshot :=
  add_visit_record demoNow "https://new.example" true 0 "" capSnapshot

/-- A record timestamped one hour before `demoNow`. -/
def hourAgoRec : VisitRecord := mkVisitRecord (demoNow - 3600) "https://hour.example" true 0 ""

/-- A record timestamped four days before `demoNow`. -/
def fourDayRec : VisitRecord :=
  mkVisitRecord (demoNow - 4 * 86400) "https://fourdays.example" false 0 "boom"

/-- Snapshot holding the one-hour-old and four-day-old records. -/
def retSnapshot : Snapshot := { DEFAULT_DATA with visit_history := [hourAgoRec, fourDayRec] }

/-- An append at `demoNow` into `retSnapshot`. -/
def afterRet : Snapshot :=
  add_visit_record demoNow "https://new.example" true 0 "" retSnapshot

/-- Arguments of the first concurrent history append. -/
def lostCall1 : VisitCall := { now := 1000, url := "https://one.example", success := true, rt := 0, err := "" }

/-- Arguments of the second concurrent history append. -/
def lostCall2 : VisitCall := { now := 1000, url := "https://two.example", success := true, rt := 0, err := "" }

/-- A snapshot whose local durable file holds one website, for the load
fallback scenario. -/
def localSnapshot : Snapshot :=
  { DEFAULT_DATA with
      websites := [mkWebsite "20240101000000000000" "2024-01-01T00:00:00" "https://kept-locally.example" ""] }

/-- A snapshot holding one site, for the duplicate-add scenario. -/
def dupSnap : Snapshot :=
  { DEFAULT_DATA with websites := [mkWebsite "1" "t0" "https://a.example" ""] }

/-- A snapshot holding one enabled site with id `s1`, for the toggle scenario. -/
def toggleSnap : Snapshot :=
  { DEFAULT_DATA with
      websites := [{ id := "s1", url := "https://t.example", name := "t", enabled := true, added_at := "t0" }] }

/-- `toggleSnap` after its site has been toggled to disabled. -/
def toggleSnapAfter : Snapshot :=
  { DEFAULT_DATA with
      websites := [{ id := "s1", url := "https://t.example", name := "t", enabled := false, added_at := "t0" }] }

/-! ## Claim C1 — mutations under one lock -/

/-- Claim C1 counterexample: the lock is released between `_load_data` and
`_save_data`, so two concurrent `add_visit_record` calls interleaved as
load, load, save, save both complete, yet the first call's record is absent
from the final snapshot — its update is lost, contradicting the claim that
the whole read-modify-write runs under one lock and no update is lost. -/
theorem C1_lost_update_counterexample :
    (runStorageSched lostCall1 lostCall2 [false, true, false, true]
        (initStorageSys DEFAULT_DATA)).a.saved = true ∧
    (runStorageSched lostCall1 lostCall2 [false, true, false, true]
        (initStorageSys DEFAULT_DATA)).b.saved = true ∧
    (runStorageSched lostCall1 lostCall2 [false, true, false, true]
        (initStorageSys DEFAULT_DATA)).shared.visit_history.contains
      (mkVisitRecord 1000 "https://one.example" true 0 "") = false ∧
    (runStorageSched lostCall1 lostCall2 [false, true, false, true]
        (initStorageSys DEFAULT_DATA)).shared.visit_history.contains
      (mkVisitRecord 1000 "https://two.example" true 0 "") = true := by
  decide

/-- Claim C1 (amended): each entity-level mutation executes its load and its
save each under the data lock, but the lock is released between the two, so
only non-overlapping mutating calls are safe: when one call's save precedes
the other's load (the serialized schedule), the final snapshot is the
sequential composition of both updates and neither is lost. -/
theorem C1_serialized_mutations (init : Snapshot) (ca cb : VisitCall) :
    (runStorageSched ca cb [false, false, true, true] (initStorageSys init)).shared
      = applyVisit cb (applyVisit ca init) ∧
    (runStorageSched ca cb [false, false, true, true] (initStorageSys init)).a.saved = true ∧
    (runStorageSched ca cb [false, false, true, true] (initStorageSys init)).b.saved = true :=
  ⟨rfl, rfl, rfl⟩

/-! ## Claim C2 — load fallback to the local file -/

/-- Claim C2 (code bug evidence): with the remote configured and the fetch
failing (network error or malformed content), `_load_data` adopts and returns
the empty default snapshot, not the content of the local durable file: every
failure path of `load_from_gist` returns the (truthy) default dict, so the
`if data:` guard in `_load_data` always takes the gist branch and the
local-file fallback is unreachable. -/
theorem C2_remote_failure_ignores_local_file :
    (_load_data none true GistFetch.netError (LocalFile.content localSnapshot)).1
      = DEFAULT_DATA ∧
    (_load_data none true (GistFetch.ok none) (LocalFile.content localSnapshot)).1
      = DEFAULT_DATA ∧
    (_load_data none true GistFetch.httpError (LocalFile.content localSnapshot)).1
      = DEFAULT_DATA ∧
    (_load_data none true GistFetch.netError (LocalFile.content localSnapshot)).2
      = some DEFAULT_DATA ∧
    DEFAULT_DATA ≠ localSnapshot := by
  decide

/-! ## Claim C3 — busy signal and atomic check-and-set -/

/-- Claim C3 counterexample: the in-progress flag is read by
`trigger_immediate_run` and set only later by the spawned pass, with no lock,
so two concurrent trigger calls interleaved as check, check, start, start
both launch a pass: the system reaches a state in which both passes are
executing at the same instant, contradicting the claimed atomic check-and-set
and the at-most-one-concurrent-run invariant. -/
theorem C3_concurrent_passes_counterexample :
    (runTrig [false, true, false, true]
        { is_running := false, p1 := .beforeCheck, p2 := .beforeCheck }).p1
      = TrigPhase.running ∧
    (runTrig [false, true, false, true]
        { is_running := false, p1 := .beforeCheck, p2 := .beforeCheck }).p2
      = TrigPhase.running := by
  decide

/-- Claim C3 (amended): a `trigger_immediate_run` call that observes the
in-progress flag set returns the busy signal and performs no action — the
flag is unchanged, the other call is untouched, and the busy call never
launches a pass under any further interleaving; however the check and the set
are separate non-atomic steps, so the at-most-one-run guarantee only holds
against passes whose flag is already set at check time. -/
theorem C3_busy_trigger_no_action (p2 : TrigPhase) (sched : List Bool) :
    (trigSysStep { is_running := true, p1 := .beforeCheck, p2 := p2 } false).p1
      = TrigPhase.busy ∧
    (trigSysStep { is_running := true, p1 := .beforeCheck, p2 := p2 } false).is_running
      = true ∧
    (trigSysStep { is_running := true, p1 := .beforeCheck, p2 := p2 } false).p2 = p2 ∧
    (runTrig sched
        (trigSysStep { is_running := true, p1 := .beforeCheck, p2 := p2 } false)).p1
      = TrigPhase.busy := by
  refine ⟨rfl, rfl, rfl, ?_⟩
  exact runTrig_busy_stable sched _ rfl

/-! ## Claim C4 — screenshot failure must not fail the visit -/

/-- Claim C4 counterexample: with navigation succeeded and the screenshot
step raising, `visit_website` returns `success = false` — the screenshot
call sits inside the one `try`, so its exception is caught by the generic
handler and converts the visit into a failure, contradicting the claim. -/
theorem C4_screenshot_failure_counterexample :
    ¬ ((visit_website "https://s.example" 5 true NavResult.ok
        (ShotResult.error "screenshot failed") true 7).1.success = true) := by
  decide

/-- Claim C4 (amended): when navigation succeeds but the screenshot capture
step fails with `captureScreenshot` true, the returned outcome has
`success = false` with the screenshot error as its message, and the same
failed outcome is recorded in the visit history — a screenshot failure does
convert the visit into a failed outcome. -/
theorem C4_screenshot_failure_fails_visit (url : String) (now rt : Int) (msg : String) :
    (visit_website url now true NavResult.ok (ShotResult.error msg) true rt).1
      = { success := false, response_time_ms := rt, error_message := msg, screenshot_path := "" } ∧
    (visit_website url now true NavResult.ok (ShotResult.error msg) true rt).2
      = some (mkVisitRecord now url false rt msg) :=
  ⟨rfl, rfl⟩

/-! ## Claim C5 — manual trigger leaves the timer untouched -/

/-- Claim C5 counterexample: a trigger accepted at a moment when the pending
job would next fire at time 100 launches a pass which, on completion at time
10 with freshly drawn interval 5, reschedules the job to fire at 15 — the
already-scheduled fire time is replaced, contradicting the claim that the
manual pass leaves it unchanged. -/
theorem C5_reschedule_counterexample :
    (trigger_immediate_run 10 5
        { schedulerActive := true, jobPresent := true, nextRunTime := 100, is_running := false }).1
      = true ∧
    ¬ ((trigger_immediate_run 10 5
        { schedulerActive := true, jobPresent := true, nextRunTime := 100, is_running := false }).2.nextRunTime
      = 100) := by
  decide

/-- Claim C5 (amended): the trigger call itself does not touch the timer, but
the pass it launches always ends in `_reschedule_with_random_interval`, which
removes the pending job and re-adds it; after an accepted trigger completes,
the scheduled fire time equals the pass's completion time plus the freshly
drawn interval, replacing whatever fire time was pending. -/
theorem C5_pass_rearms_timer (jp : Bool) (next endTime interval : Int) :
    trigger_immediate_run endTime interval
        { schedulerActive := true, jobPresent := jp, nextRunTime := next, is_running := false }
      = (true, { schedulerActive := true, jobPresent := true,
                 nextRunTime := endTime + interval, is_running := false }) :=
  rfl

/-! ## Claim C6 — bounded error messages -/

/-- Claim C6 counterexample: there is no fixed bound on the length of the
error message surfaced by a failed visit — for any proposed bound, an
exception whose message is one character longer passes through `visit_website`
verbatim. -/
theorem C6_unbounded_error_counterexample :
    ¬ ∃ L : Nat, ∀ msg : String,
      ((visit_website "https://x.example" 0 true (NavResult.error msg)
          (ShotResult.ok "p") false 7).1.error_message).length ≤ L := by
  rintro ⟨L, h⟩
  have h2 := h (String.mk (List.replicate (L + 1) 'a'))
  simp [visit_website, String.length] at h2

/-- Claim C6 (amended): the error message of a failed visit is surfaced
verbatim — unmodified and untruncated — both in the returned outcome and in
the history record, for generic navigation errors as well as screenshot
errors. -/
theorem C6_error_message_verbatim (url : String) (now rt : Int) (msg : String) :
    (visit_website url now true (NavResult.error msg) (ShotResult.ok "p") false rt).1.error_message
      = msg ∧
    (visit_website url now true (NavResult.error msg) (ShotResult.ok "p") false rt).2
      = some (mkVisitRecord now url false rt msg) ∧
    (visit_website url now true NavResult.ok (ShotResult.error msg) true rt).1.error_message
      = msg :=
  ⟨rfl, rfl, rfl⟩

/-! ## Claim C7 — settings invariant after updateSettings -/

/-- Claim C7 counterexample: `update_settings` performs no validation, so a
caller supplying `interval_min = 0` persists settings that violate
`1 ≤ interval_min ≤ interval_max ≤ 60`. -/
theorem C7_invariant_violation_counterexample :
    ¬ settingsInvariant (update_settings (some 0) none none DEFAULT_DATA).settings := by
  decide

/-- Claim C7 (amended): `update_settings` stores the supplied values without
validation, so the invariant `1 ≤ interval_min ≤ interval_max ≤ 60` holds
after the call only when the effective values satisfy it: it holds when both
bounds are supplied with `1 ≤ min ≤ max ≤ 60`, and it is preserved when no
bound is supplied. -/
theorem C7_invariant_for_valid_inputs (data : Snapshot) (a b : Int) (se : Option Bool)
    (h1 : 1 ≤ a) (h2 : a ≤ b) (h3 : b ≤ 60) :
    settingsInvariant (update_settings (some a) (some b) se data).settings ∧
    (settingsInvariant data.settings →
      settingsInvariant (update_settings none none se data).settings) := by
  constructor
  · cases se <;> simp [update_settings, settingsInvariant] <;> omega
  · intro h
    cases se <;> simpa [update_settings, settingsInvariant] using h

/-- Witness for the amended C7 theorem at concrete inputs. -/
theorem C7_invariant_for_valid_inputs_witness :
    settingsInvariant (update_settings (some 2) (some 3) none DEFAULT_DATA).settings :=
  (C7_invariant_for_valid_inputs DEFAULT_DATA 2 3 none (by decide) (by decide) (by decide)).1

/-! ## Claim C8 — history retention and cap -/

/-- Claim C8: on every append the persisted history equals the new record
prepended to the prior history with every entry older than 3 days removed,
truncated to at most 100 entries from the front; appending a 101st record to
a history of 100 same-day records yields exactly 100 records with the newest
present and the oldest evicted, a record timestamped 4 days ago is absent,
and one timestamped 1 hour ago remains. -/
theorem C8_retention_and_cap :
    (∀ (now : Int) (url : String) (success : Bool) (rt : Int) (err : String) (data : Snapshot),
      (add_visit_record now url success rt err data).visit_history
        = (mkVisitRecord now url success rt err
            :: data.visit_history.filter (retentionKeep now)).take 100) ∧
    afterCap.visit_history.length = 100 ∧
    afterCap.visit_history.head? = some (mkVisitRecord demoNow "https://new.example" true 0 "") ∧
    afterCap.visit_history.contains
      (mkVisitRecord (demoNow - 100) "https://old.example" true 0 "") = false ∧
    afterRet.visit_history.contains hourAgoRec = true ∧
    afterRet.visit_history.contains fourDayRec = false := by
  refine ⟨?_, by decide, by decide, by decide, by decide, by decide⟩
  intro now url success rt err data
  simp [add_visit_record, cleanup_eq_filter]

/-! ## Claim C9 — case-insensitive url uniqueness -/

/-- Claim C9: starting from a snapshot with no case-insensitive duplicate
urls, any sequence of `add_website` calls preserves the no-duplicates
invariant; and a call whose url case-insensitively matches an existing site
returns the distinct already-exists outcome `false` and leaves the snapshot
unchanged. -/
theorem C9_url_uniqueness :
    (∀ (calls : List AddCall) (data : Snapshot),
      noCaseDups data.websites = true →
        noCaseDups (applyAdds calls data).websites = true) ∧
    (∀ (idStr iso url name : String) (data : Snapshot),
      hasUrl data.websites url = true →
        add_website idStr iso url name data = (false, data)) := by
  constructor
  · intro calls data h
    exact applyAdds_preserves_noCaseDups calls data h
  · intro idStr iso url name data h
    simp [add_website, h]

/-- Witness for claim C9 at concrete inputs: two adds differing only in case
starting from the empty snapshot keep the invariant, and an add whose url
matches an existing site's url up to case returns `false` and leaves the
snapshot unchanged. -/
theorem C9_url_uniqueness_witness :
    noCaseDups (applyAdds
        [{ idStr := "1", iso := "t0", url := "https://A.example", name := "n" },
         { idStr := "2", iso := "t1", url := "https://a.EXAMPLE", name := "m" }]
        DEFAULT_DATA).websites = true ∧
    add_website "3" "t2" "https://A.EXAMPLE" "" dupSnap = (false, dupSnap) :=
  ⟨C9_url_uniqueness.1 _ DEFAULT_DATA (by decide),
   C9_url_uniqueness.2 "3" "t2" "https://A.EXAMPLE" "" dupSnap (by decide)⟩

/-! ## Claim C10 — toggling a missing id -/

/-- Claim C10: toggling an id that is not in the collection returns `false`,
performs no save, and leaves the snapshot unchanged; this return value is
identical to the `false` returned when an existing enabled site is toggled to
disabled (which does save), so the boolean result cannot distinguish the two
cases. -/
theorem C10_toggle_missing_id :
    (∀ (website_id : String) (data : Snapshot),
      hasId data.websites website_id = false →
        toggle_website website_id data = (false, data, false)) ∧
    toggle_website "s1" toggleSnap = (false, toggleSnapAfter, true) := by
  constructor
  · intro website_id data h
    unfold toggle_website
    rw [toggleGo_none website_id data.websites h]
  · decide

/-- Witness for claim C10 at concrete inputs: toggling a missing id on the
one-site snapshot returns `false` without saving. -/
theorem C10_toggle_missing_id_witness :
    toggle_website "missing" toggleSnap = (false, toggleSnap, false) :=
  C10_toggle_missing_id.1 "missing" toggleSnap (by decide)
